import Mathlib

/-!
Verification of the WiFi module (src/WiFi/WiFi.cpp) of the
esp-idf-components repository.

The module wraps the ESP-IDF wireless and provisioning stack.  Pure string
computations (WiFi::deviceName, WiFi::pop, the payload built in
WiFi::printQRCode) are embedded as Lean functions on explicit inputs (the
service name and random seed fixed at construction, and the hardware MAC
bytes read from the platform).  The interaction of WiFi::start and
WiFi::handler with the external stack is embedded as traces of actions and
an explicit event-group bit state.
-/

namespace WiFiModule

/-- printf %x rendering of a natural number: minimal-length lowercase
hexadecimal digits, with 0 rendered as the single digit 0.  Core
Nat.toDigits at base 16 has exactly this behaviour (Nat.digitChar maps
10..15 to the lowercase letters a..f). -/
def hexRepr (n : Nat) : String :=
  String.mk (Nat.toDigits 16 n)

/-- printf %0wx rendering: the hexadecimal digits of n, left-padded with
zeros to a minimum field width w (the field grows if the value needs more
digits, exactly as in C). -/
def formatHex (w n : Nat) : String :=
  String.leftpad w '0' (hexRepr n)

/-- snprintf semantics for the buffer writes in WiFi.cpp: at most size - 1
characters of the formatted output are stored (the final byte holds the
terminator), so the observable result is the formatted string truncated to
size - 1 characters. -/
def snprintfTrunc (size : Nat) (s : String) : String :=
  String.mk (s.data.take (size - 1))

/-- Construction state of the WiFi class: the service name passed to the
constructor and popSeed, the uint32 drawn once from esp_random() in the
constructor (WiFi.cpp lines 16-18). -/
structure WiFi where
  serviceName : String
  popSeed : Nat

/-- The 8-byte buffer filled by esp_efuse_mac_get_default in
WiFi::deviceName; only the first six bytes are read. -/
abbrev Mac := Fin 8 → Nat

/-- WiFi::deviceName (WiFi.cpp lines 128-140): XOR-fold the first six MAC
bytes into two bytes, render them with snprintf format %02x%02x into a
5-byte buffer, and append to the service name after a space. -/
def deviceName (w : WiFi) (mac : Mac) : String :=
  let byte1 := mac 0 ^^^ mac 1 ^^^ mac 2
  let byte2 := mac 3 ^^^ mac 4 ^^^ mac 5
  let uniqueId := snprintfTrunc 5 (formatHex 2 byte1 ++ formatHex 2 byte2)
  w.serviceName ++ " " ++ uniqueId

/-- WiFi::pop (WiFi.cpp lines 142-147): render popSeed with snprintf format
%08x into a 9-byte buffer. -/
def pop (w : WiFi) : String :=
  snprintfTrunc 9 (formatHex 8 w.popSeed)

/-- The payload string built in WiFi::printQRCode (WiFi.cpp lines 149-152)
from the raw string pieces and the deviceName() and pop() results. -/
def provisioningPayload (w : WiFi) (mac : Mac) : String :=
  "\x7b\"ver\":\"v1\",\"name\":\"" ++ deviceName w mac
    ++ "\",\"pop\":\"" ++ pop w
    ++ "\",\"transport\":\"ble\"\x7d"

/-- Spec-side payload schema: the fixed JSON-like shape of the spec with the
device name and proof-of-possession substituted.  Stated separately from
provisioningPayload so the two can be compared. -/
def renderProvisioningPayload (n p : String) : String :=
  "\x7b\"ver\":\"v1\",\"name\":\"" ++ n ++ "\",\"pop\":\"" ++ p
    ++ "\",\"transport\":\"ble\"\x7d"

/-- Observable actions of the module: the stack calls and outputs WiFi::start,
WiFi::printQRCode and WiFi::handler perform, in program order. -/
inductive Action where
  | logInfo
  | logDebug
  | startProvisioningCall (security : Nat) (popArg : String)
      (serviceNameArg : String) (serviceKey : Option String)
  | renderQR (payload : String)
  | provMgrWaitCall
  | provMgrDeinitCall
  | setModeStaCall
  | wifiStartCall
  | wifiConnectCall
  | waitForAllCall (bits : Nat)
  deriving DecidableEq

/-- The fixed security level WIFI_PROV_SECURITY_1 passed in WiFi::start. -/
def WIFI_PROV_SECURITY_1 : Nat := 1

/-- BIT0, the single event-group bit used by the module. -/
def BIT0 : Nat := 1

/-- WiFi::printQRCode (WiFi.cpp lines 149-162) as a trace: encode the payload
and print the QR code, then log the operator hint line. -/
def printQRCode (w : WiFi) (mac : Mac) : List Action :=
  [Action.renderQR (provisioningPayload w mac), Action.logInfo]

/-- WiFi::start (WiFi.cpp lines 61-92) as the trace of actions it performs,
given the answer the stack stores through wifi_prov_mgr_is_provisioned. -/
def start (w : WiFi) (mac : Mac) (provisioned : Bool) : List Action :=
  (if !provisioned then
    [Action.logInfo,
     Action.startProvisioningCall WIFI_PROV_SECURITY_1 (pop w) (deviceName w mac) none]
    ++ printQRCode w mac
    ++ [Action.logInfo, Action.provMgrWaitCall]
  else
    [Action.setModeStaCall, Action.wifiStartCall])
  ++ [Action.provMgrDeinitCall, Action.logInfo, Action.waitForAllCall BIT0,
      Action.logInfo]

/-- Modelled from the spec: wifiEventGroup.setBits.  The EventGroup wrapper is
declared in WiFi.hpp, which is not under src; the spec describes the
ConnectionSignal set operation as setting the bit, idempotently, never
clearing anything, which is the bitwise or. -/
def setBits (flags bits : Nat) : Nat := flags ||| bits

/-- Modelled from the spec: wifiEventGroup.waitForAll suspends until all
waited-on bits are set, so it completes exactly in states whose flags
contain those bits. -/
def waitForAllCompletes (flags bits : Nat) : Bool := flags &&& bits == bits

/-- The (event_base, event_id) pairs distinguished by WiFi::handler.  Pairs the
handler does not branch on (provisioning events, other wireless ids) are
collapsed into catch-all constructors, faithful to the fall-through of the
if chains. -/
inductive Event where
  | ipStaGotIp
  | ipGotIp6
  | ipStaLostIp
  | wifiStaConnected
  | wifiStaStart
  | wifiStaDisconnected
  | provEvent
  | otherEvent
  deriving DecidableEq

/-- WiFi::handler (WiFi.cpp lines 94-122): one event delivery, returning the
updated event-group flags and the actions performed. -/
def handler (flags : Nat) (e : Event) : Nat × List Action :=
  match e with
  | Event.ipStaGotIp => (setBits flags BIT0, [Action.logInfo])
  | Event.ipGotIp6 => (setBits flags BIT0, [Action.logInfo])
  | Event.ipStaLostIp => (flags, [Action.logDebug])
  | Event.wifiStaConnected => (flags, [Action.logInfo])
  | Event.wifiStaStart => (flags, [Action.logInfo, Action.wifiConnectCall])
  | Event.wifiStaDisconnected => (flags, [Action.logInfo, Action.wifiConnectCall])
  | Event.provEvent => (flags, [])
  | Event.otherEvent => (flags, [])

/-- Folding a sequence of event deliveries over the event-group flags. -/
def deliverAll (flags : Nat) (es : List Event) : Nat :=
  es.foldl (fun f e => (handler f e).1) flags

/-- Logging actions, as opposed to stack calls and rendered output. -/
def Action.isLog : Action → Bool
  | Action.logInfo => true
  | Action.logDebug => true
  | _ => false

/-- The non-logging actions of a trace. -/
def stackCalls (t : List Action) : List Action :=
  t.filter (fun a => !a.isLog)

/-- Recognizer for the esp_wifi_connect call. -/
def Action.isConnectCall : Action → Bool
  | Action.wifiConnectCall => true
  | _ => false

/-- Number of esp_wifi_connect calls in a trace. -/
def connectCalls (t : List Action) : Nat :=
  (t.filter Action.isConnectCall).length

/-- Lowercase hexadecimal digit characters. -/
def isLowerHexChar (c : Char) : Bool :=
  "0123456789abcdef".data.contains c

/-- The four-hex-digit device-name suffix: byte1 = id0 xor id1 xor id2 and
byte2 = id3 xor id4 xor id5, each rendered as two lowercase hex digits. -/
def macSuffix (mac : Mac) : String :=
  formatHex 2 (mac 0 ^^^ mac 1 ^^^ mac 2) ++ formatHex 2 (mac 3 ^^^ mac 4 ^^^ mac 5)

/-- Concrete WiFi instance used by the witnesses. -/
def wifiW : WiFi := WiFi.mk "Device" 305419896

/-- Concrete MAC bytes used by the witnesses. -/
def macW : Mac := fun i => [171, 0, 0, 205, 0, 0, 0, 0].getD i.val 0

/-! Lemmas about the hexadecimal formatting helpers. -/

theorem hexRepr_length_le {n e : Nat} (he : 0 < e) (hn : n < 16 ^ e) :
    (hexRepr n).length ≤ e := by
  have h := Nat.toDigitsCore_length 16 (by norm_num) (n + 1) n e hn he
  simpa [hexRepr, Nat.toDigits, String.length] using h

theorem digitChar_isLowerHex {d : Nat} (hd : d < 16) :
    isLowerHexChar (Nat.digitChar d) = true := by
  interval_cases d <;> decide

theorem toDigitsCore_chars_isLowerHex :
    ∀ (f n : Nat) (acc : List Char), (∀ c ∈ acc, isLowerHexChar c = true) →
      ∀ c ∈ Nat.toDigitsCore 16 f n acc, isLowerHexChar c = true := by
  intro f
  induction f with
  | zero =>
    intro n acc hacc c hc
    exact hacc c hc
  | succ f ih =>
    intro n acc hacc c hc
    have hmod : n % 16 < 16 := Nat.mod_lt _ (by norm_num)
    simp only [Nat.toDigitsCore] at hc
    split at hc
    · rcases List.mem_cons.mp hc with h | h
      · subst h; exact digitChar_isLowerHex hmod
      · exact hacc c h
    · refine ih (n / 16) (Nat.digitChar (n % 16) :: acc) ?_ c hc
      intro c2 hc2
      rcases List.mem_cons.mp hc2 with h | h
      · subst h; exact digitChar_isLowerHex hmod
      · exact hacc c2 h

theorem hexRepr_chars {n : Nat} : ∀ c ∈ (hexRepr n).data, isLowerHexChar c = true := by
  intro c hc
  exact toDigitsCore_chars_isLowerHex (n + 1) n [] (by simp) c hc

theorem formatHex_length {w n : Nat} (hw : 0 < w) (hn : n < 16 ^ w) :
    (formatHex w n).length = w := by
  unfold formatHex
  rw [String.leftpad_length]
  exact Nat.max_eq_left (hexRepr_length_le hw hn)

theorem formatHex_chars {w n : Nat} :
    ∀ c ∈ (formatHex w n).data, isLowerHexChar c = true := by
  intro c hc
  have h : c ∈ List.leftpad w '0' (hexRepr n).data := hc
  rw [List.leftpad] at h
  rcases List.mem_append.mp h with h1 | h1
  · have := List.eq_of_mem_replicate h1
    subst this; decide
  · exact hexRepr_chars c h1

theorem snprintfTrunc_of_le {size : Nat} {s : String} (h : s.length ≤ size - 1) :
    snprintfTrunc size s = s := by
  unfold snprintfTrunc
  rw [List.take_of_length_le h]

theorem xor3_lt_256 {a b c : Nat} (ha : a < 256) (hb : b < 256) (hc : c < 256) :
    a ^^^ b ^^^ c < 256 := by
  have h256 : (256 : Nat) = 2 ^ 8 := by norm_num
  rw [h256] at ha hb hc ⊢
  exact Nat.xor_lt_two_pow (Nat.xor_lt_two_pow ha hb) hc

theorem macSuffix_length {mac : Mac} (hmac : ∀ i, mac i < 256) :
    (macSuffix mac).length = 4 := by
  have h1 : mac 0 ^^^ mac 1 ^^^ mac 2 < 256 := xor3_lt_256 (hmac 0) (hmac 1) (hmac 2)
  have h2 : mac 3 ^^^ mac 4 ^^^ mac 5 < 256 := xor3_lt_256 (hmac 3) (hmac 4) (hmac 5)
  have e : (256 : Nat) = 16 ^ 2 := by norm_num
  rw [e] at h1 h2
  unfold macSuffix
  rw [String.length_append, formatHex_length (by norm_num) h1,
    formatHex_length (by norm_num) h2]

theorem macSuffix_chars {mac : Mac} :
    ∀ c ∈ (macSuffix mac).data, isLowerHexChar c = true := by
  intro c hc
  unfold macSuffix at hc
  rw [String.data_append] at hc
  rcases List.mem_append.mp hc with h | h
  · exact formatHex_chars c h
  · exact formatHex_chars c h

theorem deliverAll_mono :
    ∀ (es : List Event) (flags : Nat), flags.testBit 0 = true →
      (deliverAll flags es).testBit 0 = true := by
  intro es
  induction es with
  | nil => intro flags h; exact h
  | cons e es ih =>
    intro flags h
    show (deliverAll (handler flags e).1 es).testBit 0 = true
    refine ih _ ?_
    cases e <;> simp [handler, setBits, BIT0, Nat.testBit_or, h]

theorem testBit_zero_of_and_one {flags : Nat} (h : flags &&& 1 = 1) :
    flags.testBit 0 = true := by
  have h1 : flags % 2 = 1 := by rwa [Nat.and_one_is_mod] at h
  simp [Nat.testBit_zero, h1]

/-! Claim theorems. -/

/-- C1: on the not-provisioned path, start launches interactive provisioning
with the fixed security level WIFI_PROV_SECURITY_1, passing pop() as the
shared secret and deviceName() as the advertised identifier, then renders the
scannable payload, then blocks on the provisioning-completion wait; and on
every path the provisioning manager is deinitialized before the blocking
connectivity wait. -/
theorem C1_start_not_provisioned (w : WiFi) (mac : Mac) :
    stackCalls (start w mac false) =
      [Action.startProvisioningCall WIFI_PROV_SECURITY_1 (pop w) (deviceName w mac) none,
       Action.renderQR (provisioningPayload w mac),
       Action.provMgrWaitCall,
       Action.provMgrDeinitCall,
       Action.waitForAllCall BIT0] ∧
    ∀ provisioned, ∃ pre, start w mac provisioned =
      pre ++ [Action.provMgrDeinitCall, Action.logInfo, Action.waitForAllCall BIT0,
              Action.logInfo] := by
  refine ⟨rfl, ?_⟩
  intro b
  cases b
  · exact ⟨_, rfl⟩
  · exact ⟨_, rfl⟩

/-- C1 witness: the theorem at the concrete construction state and MAC used
throughout the witnesses. -/
theorem C1_start_not_provisioned_witness :
    stackCalls (start wifiW macW false) =
      [Action.startProvisioningCall WIFI_PROV_SECURITY_1 (pop wifiW) (deviceName wifiW macW) none,
       Action.renderQR (provisioningPayload wifiW macW),
       Action.provMgrWaitCall,
       Action.provMgrDeinitCall,
       Action.waitForAllCall BIT0] ∧
    ∀ provisioned, ∃ pre, start wifiW macW provisioned =
      pre ++ [Action.provMgrDeinitCall, Action.logInfo, Action.waitForAllCall BIT0,
              Action.logInfo] :=
  C1_start_not_provisioned wifiW macW

/-- C2: on the provisioned path, start sets station mode and starts the radio,
renders no payload, and its final blocking step completes only in a state
whose connectivity bit is set. -/
theorem C2_start_provisioned (w : WiFi) (mac : Mac) :
    stackCalls (start w mac true) =
      [Action.setModeStaCall, Action.wifiStartCall, Action.provMgrDeinitCall,
       Action.waitForAllCall BIT0] ∧
    (∀ p, Action.renderQR p ∉ start w mac true) ∧
    (stackCalls (start w mac true)).getLast? = some (Action.waitForAllCall BIT0) ∧
    ∀ flags, waitForAllCompletes flags BIT0 = true → flags.testBit 0 = true := by
  refine ⟨rfl, ?_, rfl, ?_⟩
  · intro p
    show Action.renderQR p ∉
      [Action.setModeStaCall, Action.wifiStartCall]
      ++ [Action.provMgrDeinitCall, Action.logInfo, Action.waitForAllCall BIT0,
          Action.logInfo]
    simp
  · intro flags hfl
    have h : flags &&& 1 = 1 := by
      simpa [waitForAllCompletes, BIT0] using hfl
    exact testBit_zero_of_and_one h

/-- C2 witness: the theorem at the concrete construction state and MAC. -/
theorem C2_start_provisioned_witness :
    stackCalls (start wifiW macW true) =
      [Action.setModeStaCall, Action.wifiStartCall, Action.provMgrDeinitCall,
       Action.waitForAllCall BIT0] ∧
    (∀ p, Action.renderQR p ∉ start wifiW macW true) ∧
    (stackCalls (start wifiW macW true)).getLast? = some (Action.waitForAllCall BIT0) ∧
    ∀ flags, waitForAllCompletes flags BIT0 = true → flags.testBit 0 = true :=
  C2_start_provisioned wifiW macW

/-- C3: for every service name and every hardware identity whose bytes are
bytes, deviceName returns the service name, a separating space, and the
four-lowercase-hex-digit suffix formed from byte1 = id0^id1^id2 and
byte2 = id3^id4^id5. -/
theorem C3_deviceName_shape (w : WiFi) (mac : Mac) (hmac : ∀ i, mac i < 256) :
    deviceName w mac = w.serviceName ++ " " ++ macSuffix mac ∧
    (macSuffix mac).length = 4 ∧
    ∀ c ∈ (macSuffix mac).data, isLowerHexChar c = true := by
  refine ⟨?_, macSuffix_length hmac, macSuffix_chars⟩
  show w.serviceName ++ " " ++ snprintfTrunc 5 (macSuffix mac)
      = w.serviceName ++ " " ++ macSuffix mac
  rw [snprintfTrunc_of_le (by rw [macSuffix_length hmac])]

/-- C3 witness: concrete MAC bytes 171,0,0,205,0,0 give the suffix abcd. -/
theorem C3_deviceName_shape_witness :
    (∀ i, macW i < 256) ∧
    (deviceName wifiW macW = wifiW.serviceName ++ " " ++ macSuffix macW ∧
     (macSuffix macW).length = 4 ∧
     ∀ c ∈ (macSuffix macW).data, isLowerHexChar c = true) :=
  ⟨by decide, C3_deviceName_shape wifiW macW (by decide)⟩

/-- C4: the payload built by printQRCode is exactly the fixed schema with the
device name and pop substituted, and for name Device abcd with pop 12345678
it is exactly the string of the claim. -/
theorem C4_payload (w : WiFi) (mac : Mac) :
    provisioningPayload w mac = renderProvisioningPayload (deviceName w mac) (pop w) ∧
    (∀ n p, renderProvisioningPayload n p =
      "\x7b\"ver\":\"v1\",\"name\":\"" ++ n ++ "\",\"pop\":\"" ++ p
        ++ "\",\"transport\":\"ble\"\x7d") ∧
    renderProvisioningPayload "Device abcd" "12345678" =
      "\x7b\"ver\":\"v1\",\"name\":\"Device abcd\",\"pop\":\"12345678\",\"transport\":\"ble\"\x7d" := by
  exact ⟨rfl, fun n p => rfl, by decide⟩

/-- C4 witness: the theorem at the concrete construction state and MAC; at
these inputs deviceName is Device abcd and pop is 12345678, so the concrete
conjunct is about the exactly rendered payload of this instance. -/
theorem C4_payload_witness :
    provisioningPayload wifiW macW = renderProvisioningPayload (deviceName wifiW macW) (pop wifiW) ∧
    (∀ n p, renderProvisioningPayload n p =
      "\x7b\"ver\":\"v1\",\"name\":\"" ++ n ++ "\",\"pop\":\"" ++ p
        ++ "\",\"transport\":\"ble\"\x7d") ∧
    renderProvisioningPayload "Device abcd" "12345678" =
      "\x7b\"ver\":\"v1\",\"name\":\"Device abcd\",\"pop\":\"12345678\",\"transport\":\"ble\"\x7d" :=
  C4_payload wifiW macW

/-- C5: delivering got-IPv4 or got-IPv6 sets the connectivity bit, and apart
from logging the handler performs no other action for those events. -/
theorem C5_got_ip_sets_flag (flags : Nat) (e : Event)
    (he : e = Event.ipStaGotIp ∨ e = Event.ipGotIp6) :
    (handler flags e).1 = setBits flags BIT0 ∧
    ((handler flags e).1).testBit 0 = true ∧
    stackCalls ((handler flags e).2) = [] := by
  have hbit : (setBits flags BIT0).testBit 0 = true := by
    simp [setBits, BIT0, Nat.testBit_or]
  rcases he with rfl | rfl
  · exact ⟨rfl, hbit, rfl⟩
  · exact ⟨rfl, hbit, rfl⟩

/-- C5 witness: a got-IPv4 delivery on cleared flags. -/
theorem C5_got_ip_sets_flag_witness :
    (Event.ipStaGotIp = Event.ipStaGotIp ∨ Event.ipStaGotIp = Event.ipGotIp6) ∧
    ((handler 0 Event.ipStaGotIp).1 = setBits 0 BIT0 ∧
     ((handler 0 Event.ipStaGotIp).1).testBit 0 = true ∧
     stackCalls ((handler 0 Event.ipStaGotIp).2) = []) :=
  ⟨Or.inl rfl, C5_got_ip_sets_flag 0 Event.ipStaGotIp (Or.inl rfl)⟩

/-- C6: no event delivery clears the connectivity bit: every handler step
either leaves the flags unchanged or sets BIT0, a lost-IP delivery changes no
state at all, and once the bit is set it stays set across any further
sequence of deliveries; no other operation of the module touches the flags. -/
theorem C6_flag_never_cleared (flags : Nat) :
    (∀ e, (handler flags e).1 = flags ∨ (handler flags e).1 = setBits flags BIT0) ∧
    (handler flags Event.ipStaLostIp).1 = flags ∧
    ∀ es : List Event, flags.testBit 0 = true →
      (deliverAll flags es).testBit 0 = true := by
  refine ⟨?_, rfl, fun es h => deliverAll_mono es flags h⟩
  intro e
  cases e
  · exact Or.inr rfl
  · exact Or.inr rfl
  · exact Or.inl rfl
  · exact Or.inl rfl
  · exact Or.inl rfl
  · exact Or.inl rfl
  · exact Or.inl rfl
  · exact Or.inl rfl

/-- C6 witness: with the bit set, a lost-IP delivery followed by a disconnect
delivery leaves the bit set. -/
theorem C6_flag_never_cleared_witness :
    (handler 1 Event.ipStaLostIp).1 = 1 ∧
    (deliverAll 1 [Event.ipStaLostIp, Event.wifiStaDisconnected]).testBit 0 = true :=
  ⟨(C6_flag_never_cleared 1).2.1,
   (C6_flag_never_cleared 1).2.2 [Event.ipStaLostIp, Event.wifiStaDisconnected] (by decide)⟩

/-- C7: a station-start or station-disconnect delivery issues exactly one
connect request to the stack, the two events cause the identical handler
result, and the flags are unchanged. -/
theorem C7_reconnect (flags : Nat) (e : Event)
    (he : e = Event.wifiStaStart ∨ e = Event.wifiStaDisconnected) :
    connectCalls ((handler flags e).2) = 1 ∧
    handler flags e = handler flags Event.wifiStaStart ∧
    (handler flags e).1 = flags := by
  rcases he with rfl | rfl
  · exact ⟨rfl, rfl, rfl⟩
  · exact ⟨rfl, rfl, rfl⟩

/-- C7 witness: a station-disconnect delivery on cleared flags. -/
theorem C7_reconnect_witness :
    (Event.wifiStaDisconnected = Event.wifiStaStart ∨
     Event.wifiStaDisconnected = Event.wifiStaDisconnected) ∧
    (connectCalls ((handler 0 Event.wifiStaDisconnected).2) = 1 ∧
     handler 0 Event.wifiStaDisconnected = handler 0 Event.wifiStaStart ∧
     (handler 0 Event.wifiStaDisconnected).1 = 0) :=
  ⟨Or.inr rfl, C7_reconnect 0 Event.wifiStaDisconnected (Or.inr rfl)⟩

/-- C8: pop renders popSeed as exactly the zero-padded eight-lowercase-hex-digit
string, and any instance with the same seed gives the same string, so repeated
calls within a run agree. -/
theorem C8_pop_shape (w : WiFi) (h : w.popSeed < 2 ^ 32) :
    pop w = formatHex 8 w.popSeed ∧
    (pop w).length = 8 ∧
    (∀ c ∈ (pop w).data, isLowerHexChar c = true) ∧
    ∀ w2 : WiFi, w2.popSeed = w.popSeed → pop w2 = pop w := by
  have h16 : w.popSeed < 16 ^ 8 := by
    have e : (16 : Nat) ^ 8 = 2 ^ 32 := by norm_num
    rw [e]; exact h
  have hflen : (formatHex 8 w.popSeed).length = 8 := formatHex_length (by norm_num) h16
  have hple : (formatHex 8 w.popSeed).length ≤ 9 - 1 := by rw [hflen]
  have hpop : pop w = formatHex 8 w.popSeed := snprintfTrunc_of_le hple
  refine ⟨hpop, ?_, ?_, ?_⟩
  · rw [hpop, hflen]
  · intro c hc
    rw [hpop] at hc
    exact formatHex_chars c hc
  · intro w2 h2
    unfold pop
    rw [h2]

/-- C8 witness: seed 0x12345678 renders as 12345678. -/
theorem C8_pop_shape_witness :
    wifiW.popSeed < 2 ^ 32 ∧
    (pop wifiW = formatHex 8 wifiW.popSeed ∧
     (pop wifiW).length = 8 ∧
     (∀ c ∈ (pop wifiW).data, isLowerHexChar c = true) ∧
     ∀ w2 : WiFi, w2.popSeed = wifiW.popSeed → pop w2 = pop wifiW) :=
  ⟨by decide, C8_pop_shape wifiW (by decide)⟩

/-- C9: deviceName does not depend on popSeed: the same service name and
hardware identity give the same string whatever the two seeds, and repeated
calls of one instance agree. -/
theorem C9_deviceName_seed_independent (s : String) (seed1 seed2 : Nat) (mac : Mac) :
    deviceName (WiFi.mk s seed1) mac = deviceName (WiFi.mk s seed2) mac ∧
    deviceName (WiFi.mk s seed1) mac = deviceName (WiFi.mk s seed1) mac :=
  ⟨rfl, rfl⟩

/-- C9 witness: the theorem at the concrete service name, two distinct seeds
and the concrete MAC. -/
theorem C9_deviceName_seed_independent_witness :
    deviceName (WiFi.mk "Device" 305419896) macW = deviceName (WiFi.mk "Device" 7) macW ∧
    deviceName (WiFi.mk "Device" 305419896) macW = deviceName (WiFi.mk "Device" 305419896) macW :=
  C9_deviceName_seed_independent "Device" 305419896 7 macW

/-- C10: the fixed-size buffers fit their output: the %02x%02x rendering of the
two folded bytes is exactly 4 characters in the 5-byte buffer and the %08x
rendering of the seed is exactly 8 characters in the 9-byte buffer, so no
truncation occurs and the returned strings have exactly those lengths. -/
theorem C10_buffers_fit (w : WiFi) (mac : Mac) (hmac : ∀ i, mac i < 256)
    (hseed : w.popSeed < 2 ^ 32) :
    (macSuffix mac).length = 4 ∧
    snprintfTrunc 5 (macSuffix mac) = macSuffix mac ∧
    (formatHex 8 w.popSeed).length = 8 ∧
    snprintfTrunc 9 (formatHex 8 w.popSeed) = formatHex 8 w.popSeed ∧
    (deviceName w mac).length = w.serviceName.length + 1 + 4 ∧
    (pop w).length = 8 := by
  have h16 : w.popSeed < 16 ^ 8 := by
    have e : (16 : Nat) ^ 8 = 2 ^ 32 := by norm_num
    rw [e]; exact hseed
  have hms : (macSuffix mac).length = 4 := macSuffix_length hmac
  have hnotrunc : snprintfTrunc 5 (macSuffix mac) = macSuffix mac :=
    snprintfTrunc_of_le (by rw [hms])
  have hflen : (formatHex 8 w.popSeed).length = 8 := formatHex_length (by norm_num) h16
  have hptrunc : snprintfTrunc 9 (formatHex 8 w.popSeed) = formatHex 8 w.popSeed :=
    snprintfTrunc_of_le (by rw [hflen])
  refine ⟨hms, hnotrunc, hflen, hptrunc, ?_, ?_⟩
  · show (w.serviceName ++ " " ++ snprintfTrunc 5 (macSuffix mac)).length
        = w.serviceName.length + 1 + 4
    rw [hnotrunc, String.length_append, String.length_append, hms]
    rfl
  · show (snprintfTrunc 9 (formatHex 8 w.popSeed)).length = 8
    rw [hptrunc, hflen]

/-- C10 witness: the theorem at the concrete construction state and MAC. -/
theorem C10_buffers_fit_witness :
    ((∀ i, macW i < 256) ∧ wifiW.popSeed < 2 ^ 32) ∧
    ((macSuffix macW).length = 4 ∧
     snprintfTrunc 5 (macSuffix macW) = macSuffix macW ∧
     (formatHex 8 wifiW.popSeed).length = 8 ∧
     snprintfTrunc 9 (formatHex 8 wifiW.popSeed) = formatHex 8 wifiW.popSeed ∧
     (deviceName wifiW macW).length = wifiW.serviceName.length + 1 + 4 ∧
     (pop wifiW).length = 8) :=
  ⟨⟨by decide, by decide⟩, C10_buffers_fit wifiW macW (by decide) (by decide)⟩

end WiFiModule
